import Mathlib

/-!
Shallow embedding of the flask-todo-cicd repository: the Todo data model
(src/app/models.py), the six route handlers (src/app/routes.py) and the
registered error handlers (src/app/__init__.py), together with theorems
settling the claims about them.

Modelling conventions:
- JSON request and response bodies are explicit JSON values (JVal / Jobj).
- Timestamps are abstract ticks (Nat); the current time is passed to each
  handler as the argument now, standing for datetime.utcnow().
- The database session outcome is a DbOutcome argument: DbOutcome.ok means
  the storage layer succeeds, DbOutcome.fail msg means the storage layer
  raises SQLAlchemyError with message msg during the operation.  On failure
  the handler performs db.session.rollback(), so the store it returns is the
  store it received.
- The store is the list of persisted rows plus the next autoincrement key.
- Column types: the Todo table declares title/description as strings and
  completed as boolean, so the record fields are typed accordingly; request
  body fields of the expected JSON type are extracted exactly, and the
  claims only exercise those cases (plus the untyped title on create, which
  is modelled faithfully since the handler calls .strip() on the raw value).
-/

namespace TodoApp

/-- A JSON value, as produced by request.get_json() and consumed by jsonify. -/
inductive JVal where
  | jnull
  | jbool (b : Bool)
  | jnum (n : Int)
  | jstr (s : String)
  | jarr (elems : List JVal)
  | jobj (fields : List (String × JVal))

/-- A JSON object: an association list of string keys to JSON values. -/
abbrev Jobj := List (String × JVal)

/-- Key lookup in a JSON object, as Python dict access / dict.get. -/
def jlookup (obj : Jobj) (k : String) : Option JVal :=
  (obj.find? (fun p => p.1 == k)).map (fun p => p.2)

/-- The Python str.strip() method: remove leading and trailing whitespace. -/
def pyStrip (s : String) : String :=
  String.mk (((s.data.dropWhile Char.isWhitespace).reverse.dropWhile
    Char.isWhitespace).reverse)

/-- The Todo model of src/app/models.py: columns id (integer primary key),
title (string, not nullable), description (string, default empty), completed
(boolean, default false), created_at and updated_at (timestamps defaulting to
datetime.utcnow, updated_at refreshed on update). -/
structure Todo where
  id : Nat
  title : String
  description : String
  completed : Bool
  created_at : Nat
  updated_at : Nat
deriving DecidableEq

/-- datetime.isoformat() + the literal Z suffix, on an abstract tick. -/
def isoformatZ (ts : Nat) : String :=
  toString ts ++ "Z"

/-- Todo.to_dict of src/app/models.py: the JSON shape of one record. -/
def Todo.to_dict (t : Todo) : JVal :=
  JVal.jobj [("id", JVal.jnum t.id), ("title", JVal.jstr t.title),
    ("description", JVal.jstr t.description),
    ("completed", JVal.jbool t.completed),
    ("created_at", JVal.jstr (isoformatZ t.created_at)),
    ("updated_at", JVal.jstr (isoformatZ t.updated_at))]

/-- The persistent store: the rows of the todo table plus the next
autoincrement primary key value. -/
structure Store where
  todos : List Todo
  nextId : Nat
deriving DecidableEq

/-- The empty store: no rows, autoincrement keys start at 1. -/
def Store.empty : Store := { todos := [], nextId := 1 }

/-- Todo.query.get(id): primary-key lookup in the store. -/
def findTodo (s : Store) (id : Nat) : Option Todo :=
  s.todos.find? (fun t => t.id == id)

/-- Outcome of the database session for one request: either the storage layer
succeeds, or it raises SQLAlchemyError with the given message. -/
inductive DbOutcome where
  | ok
  | fail (msg : String)

/-- An HTTP response: status code and JSON object body. -/
abbrev Resp := Nat × Jobj

/-- The 500 response of the SQLAlchemyError handlers in src/app/routes.py. -/
def storageErrorResp (msg : String) : Resp :=
  (500, [("success", JVal.jbool false),
         ("error", JVal.jstr ("Database error: " ++ msg))])

/-- The registered 404 handler of src/app/__init__.py. -/
def notFoundResp : Resp :=
  (404, [("success", JVal.jbool false),
         ("error", JVal.jstr "Resource not found"),
         ("message", JVal.jstr "The requested URL was not found on the server.")])

/-- The registered 500 handler of src/app/__init__.py, reached by unhandled
exceptions; it rolls back the session and returns a generic body. -/
def internalErrorResp : Resp :=
  (500, [("success", JVal.jbool false),
         ("error", JVal.jstr "Internal server error"),
         ("message", JVal.jstr "An unexpected error has occurred. Please try again later.")])

/-- The 400 response of create_todo when the title validation fails. -/
def titleRequiredResp : Resp :=
  (400, [("success", JVal.jbool false),
         ("error", JVal.jstr "Title is required")])

/-- health_check of src/app/routes.py: SELECT 1 against the session; on
success 200 healthy/connected, on any exception 503 with the error text. -/
def health_check (db : DbOutcome) : Resp :=
  match db with
  | DbOutcome.fail msg =>
      (503, [("status", JVal.jstr "unhealthy"),
             ("database", JVal.jstr "disconnected"),
             ("error", JVal.jstr msg)])
  | DbOutcome.ok =>
      (200, [("status", JVal.jstr "healthy"),
             ("database", JVal.jstr "connected")])

/-- The comparison used by Todo.query.order_by(Todo.created_at.desc()):
row a may precede row b when the created_at of b is at most that of a. -/
def createdDescLe (a b : Todo) : Bool :=
  Nat.ble b.created_at a.created_at

/-- get_todos of src/app/routes.py: all rows ordered by created_at
descending, with a count; on SQLAlchemyError a 500 database-error body. -/
def get_todos (db : DbOutcome) (s : Store) : Resp :=
  match db with
  | DbOutcome.fail msg => storageErrorResp msg
  | DbOutcome.ok =>
      let todos := s.todos.mergeSort createdDescLe
      (200, [("success", JVal.jbool true),
             ("count", JVal.jnum todos.length),
             ("data", JVal.jarr (todos.map Todo.to_dict))])

/-- data.get("description", "") in create_todo, read at the declared column
type: a string value is taken exactly, an absent key gives the default. -/
def getDescription (data : Jobj) : String :=
  match jlookup data "description" with
  | some (JVal.jstr d) => d
  | _ => ""

/-- create_todo of src/app/routes.py.  The guard
if not data or "title" not in data or not data["title"].strip() rejects a
null body, an empty object, a missing title key and a title that strips to
the empty string with 400; a title value that is not a string raises
AttributeError at .strip(), which bubbles to the registered 500 handler.
Otherwise the row is inserted with the title verbatim and the description
default, and committed; SQLAlchemyError rolls back and returns 500. -/
def create_todo (body : Option Jobj) (db : DbOutcome) (now : Nat) (s : Store) :
    Resp × Store :=
  match body with
  | none => (titleRequiredResp, s)
  | some data =>
    if data.isEmpty then (titleRequiredResp, s)
    else
      match jlookup data "title" with
      | none => (titleRequiredResp, s)
      | some (JVal.jstr title) =>
          if pyStrip title == "" then (titleRequiredResp, s)
          else
            match db with
            | DbOutcome.fail msg => (storageErrorResp msg, s)
            | DbOutcome.ok =>
                let newTodo : Todo :=
                  { id := s.nextId, title := title,
                    description := getDescription data,
                    completed := false, created_at := now, updated_at := now }
                ((201, [("success", JVal.jbool true),
                        ("data", newTodo.to_dict),
                        ("message", JVal.jstr "Todo created successfully")]),
                 { todos := s.todos ++ [newTodo], nextId := s.nextId + 1 })
      | some _ => (internalErrorResp, s)

/-- get_todo of src/app/routes.py: get_or_404 then the success body. -/
def get_todo (id : Nat) (s : Store) : Resp :=
  match findTodo s id with
  | none => notFoundResp
  | some t => (200, [("success", JVal.jbool true), ("data", t.to_dict)])

/-- The field assignments of update_todo:
todo.title = data.get("title", todo.title) and likewise for description and
completed, read at the declared column types, with updated_at refreshed. -/
def applyPut (todo : Todo) (data : Jobj) (now : Nat) : Todo :=
  { todo with
    title := match jlookup data "title" with
      | some (JVal.jstr v) => v
      | _ => todo.title,
    description := match jlookup data "description" with
      | some (JVal.jstr v) => v
      | _ => todo.description,
    completed := match jlookup data "completed" with
      | some (JVal.jbool v) => v
      | _ => todo.completed,
    updated_at := now }

/-- update_todo of src/app/routes.py: get_or_404, then the three
data.get assignments (no validation of the new title), then commit; a null
body raises AttributeError at data.get, reaching the registered 500 handler;
SQLAlchemyError rolls back and returns 500. -/
def update_todo (id : Nat) (body : Option Jobj) (db : DbOutcome) (now : Nat)
    (s : Store) : Resp × Store :=
  match findTodo s id with
  | none => (notFoundResp, s)
  | some todo =>
    match body with
    | none => (internalErrorResp, s)
    | some data =>
      match db with
      | DbOutcome.fail msg => (storageErrorResp msg, s)
      | DbOutcome.ok =>
          let todo2 := applyPut todo data now
          ((200, [("success", JVal.jbool true),
                  ("data", todo2.to_dict),
                  ("message", JVal.jstr "Todo updated successfully")]),
           { s with todos := s.todos.map (fun t => if t.id == id then todo2 else t) })

/-- delete_todo of src/app/routes.py: get_or_404, then delete and commit;
SQLAlchemyError rolls back and returns 500. -/
def delete_todo (id : Nat) (db : DbOutcome) (s : Store) : Resp × Store :=
  match findTodo s id with
  | none => (notFoundResp, s)
  | some _ =>
    match db with
    | DbOutcome.fail msg => (storageErrorResp msg, s)
    | DbOutcome.ok =>
        ((200, [("success", JVal.jbool true),
                ("message", JVal.jstr "Todo deleted successfully")]),
         { s with todos := s.todos.filter (fun t => !(t.id == id)) })

/-- One inbound HTTP request against the API surface. -/
inductive Request where
  | health
  | listTodos
  | getOne (id : Nat)
  | create (body : Option Jobj)
  | update (id : Nat) (body : Option Jobj)
  | delete (id : Nat)

/-- Dispatch one request to its handler. -/
def handle (req : Request) (db : DbOutcome) (now : Nat) (s : Store) :
    Resp × Store :=
  match req with
  | Request.health => (health_check db, s)
  | Request.listTodos => (get_todos db s, s)
  | Request.getOne id => (get_todo id s, s)
  | Request.create body => create_todo body db now s
  | Request.update id body => update_todo id body db now s
  | Request.delete id => delete_todo id db s

/-- One step of a request trace: the request, the session outcome and the
current time. -/
structure Step where
  req : Request
  db : DbOutcome
  now : Nat

/-- The store after one step. -/
def execStep (s : Store) (st : Step) : Store :=
  (handle st.req st.db st.now s).2

/-- The store after a sequence of requests. -/
def execTrace (s : Store) (steps : List Step) : Store :=
  steps.foldl execStep s

/-- The title invariant of the spec: no stored row has an empty title. -/
def TitlesNonEmpty (s : Store) : Prop :=
  ∀ t ∈ s.todos, t.title ≠ ""

/-- A step whose PUT body, when it carries a string title, carries one that
is non-blank after stripping; every non-update step qualifies. -/
def StepTitleOk (st : Step) : Prop :=
  match st.req with
  | Request.update _ (some data) =>
      ∀ v, jlookup data "title" = some (JVal.jstr v) → pyStrip v ≠ ""
  | _ => True

/-- The error-body shape the spec promises: success is false and an error
or message string is present. -/
def ErrorBodyOk (b : Jobj) : Prop :=
  jlookup b "success" = some (JVal.jbool false) ∧
  ((∃ m, jlookup b "error" = some (JVal.jstr m)) ∨
   (∃ m, jlookup b "message" = some (JVal.jstr m)))

/-- A mutating request that passes its validation and lookup phases and
therefore reaches the storage commit. -/
def ReachesStorage (req : Request) (s : Store) : Prop :=
  match req with
  | Request.create (some data) =>
      ∃ t, jlookup data "title" = some (JVal.jstr t) ∧ pyStrip t ≠ ""
  | Request.update id (some _) => (findTodo s id).isSome = true
  | Request.delete id => (findTodo s id).isSome = true
  | _ => False

/-- A trace that creates one todo and then sends PUT with an empty title. -/
def c1Steps : List Step :=
  [ { req := Request.create (some [("title", JVal.jstr "a")]),
      db := DbOutcome.ok, now := 0 },
    { req := Request.update 1 (some [("title", JVal.jstr "")]),
      db := DbOutcome.ok, now := 1 } ]

/-- A trace that creates one todo and then sends PUT touching only the
completed flag. -/
def c1GoodSteps : List Step :=
  [ { req := Request.create (some [("title", JVal.jstr "Buy milk")]),
      db := DbOutcome.ok, now := 0 },
    { req := Request.update 1 (some [("completed", JVal.jbool true)]),
      db := DbOutcome.ok, now := 1 } ]

/-- A concrete stored row used to instantiate theorems with hypotheses. -/
def demoTodo : Todo :=
  { id := 1, title := "Buy milk", description := "", completed := false,
    created_at := 0, updated_at := 0 }

/-- A concrete store holding demoTodo under id 1. -/
def demoStore : Store := { todos := [demoTodo], nextId := 2 }

/-- A PUT body that touches only the completed flag, setting it to false. -/
def c3Body : Jobj := [("completed", JVal.jbool false)]

/-- A POST body carrying a title and a description. -/
def c5Body : Jobj := [("title", JVal.jstr "Buy milk"), ("description", JVal.jstr "2 liters")]

/-- A POST body carrying a description but no title. -/
def c8Body : Jobj := [("description", JVal.jstr "x")]

/-- A POST body whose title is a number rather than a string. -/
def c9Body : Jobj := [("title", JVal.jnum 3)]

/-- A POST body whose title carries leading and trailing whitespace. -/
def c10Body : Jobj := [("title", JVal.jstr "  padded title  ")]

end TodoApp

namespace TodoApp

/-- Helper: a successful key lookup means the object is not empty. -/
theorem isEmpty_false_of_jlookup (data : Jobj) (k : String) (v : JVal)
    (h : jlookup data k = some v) : data.isEmpty = false := by
  cases data with
  | nil => exact Option.noConfusion h
  | cons a l => rfl

/-- Helper: a string that strips to something non-empty is non-empty. -/
theorem ne_empty_of_pyStrip (v : String) (h : pyStrip v ≠ "") : v ≠ "" := by
  intro hv
  apply h
  rw [hv]
  rfl

/-- Helper: the 400 validation body has the promised error shape. -/
theorem errorBodyOk_titleRequired : ErrorBodyOk titleRequiredResp.2 :=
  ⟨rfl, Or.inl ⟨_, rfl⟩⟩

/-- Helper: the registered 404 body has the promised error shape. -/
theorem errorBodyOk_notFound : ErrorBodyOk notFoundResp.2 :=
  ⟨rfl, Or.inl ⟨_, rfl⟩⟩

/-- Helper: the registered 500 body has the promised error shape. -/
theorem errorBodyOk_internal : ErrorBodyOk internalErrorResp.2 :=
  ⟨rfl, Or.inl ⟨_, rfl⟩⟩

/-- Helper: the storage-error 500 body has the promised error shape. -/
theorem errorBodyOk_storage (msg : String) : ErrorBodyOk (storageErrorResp msg).2 :=
  ⟨rfl, Or.inl ⟨_, rfl⟩⟩

/-- Helper: a row whose key is filtered out can no longer be found. -/
theorem find_filter_ne (l : List Todo) (id : Nat) :
    (l.filter (fun t => !(t.id == id))).find? (fun t => t.id == id) = none := by
  rw [List.find?_eq_none]
  intro x hx
  have h2 := (List.mem_filter.mp hx).2
  simp at h2
  simp [h2]

/-- Helper: an appended row with a key fresh for the old rows is found. -/
theorem find_append_fresh (l : List Todo) (nt : Todo) (id : Nat)
    (h2 : (nt.id == id) = true)
    (hfresh : ∀ t ∈ l, t.id ≠ id) :
    (l ++ [nt]).find? (fun t => t.id == id) = some nt := by
  rw [List.find?_append]
  have h1 : l.find? (fun t => t.id == id) = none := by
    rw [List.find?_eq_none]
    intro x hx
    simpa using hfresh x hx
  rw [h1]
  simp [List.find?, h2]

/-- Helper: replacing the rows holding a key makes lookup return the
replacement, provided some row held the key. -/
theorem find_map_replace (l : List Todo) (id : Nat) (todo2 : Todo)
    (h2 : (todo2.id == id) = true)
    (h : (l.find? (fun t => t.id == id)).isSome = true) :
    ((l.map (fun t => if t.id == id then todo2 else t)).find? (fun t => t.id == id))
      = some todo2 := by
  induction l with
  | nil => simp [List.find?] at h
  | cons a l ih =>
    by_cases ha : (a.id == id) = true
    · simp only [List.map_cons, if_pos ha]
      exact List.find?_cons_of_pos _ h2
    · have ha2 : ¬((fun t : Todo => t.id == id) a = true) := ha
      simp only [List.map_cons, if_neg ha]
      rw [@List.find?_cons_of_neg Todo (fun t => t.id == id) a
        (l.map (fun t => if t.id == id then todo2 else t)) ha2]
      apply ih
      rwa [@List.find?_cons_of_neg Todo (fun t => t.id == id) a l ha2] at h

/-- Helper: the four possible response bodies of create_todo. -/
theorem create_resp_cases (body : Option Jobj) (db : DbOutcome) (now : Nat) (s : Store) :
    (create_todo body db now s).1 = titleRequiredResp ∨
    (∃ msg, (create_todo body db now s).1 = storageErrorResp msg) ∨
    (create_todo body db now s).1 = internalErrorResp ∨
    (create_todo body db now s).1.1 = 201 := by
  cases body with
  | none => exact Or.inl rfl
  | some data =>
    by_cases hemp : data.isEmpty
    · left; simp [create_todo, hemp]
    · rcases hT : jlookup data "title" with _ | v
      · left; simp [create_todo, hemp, hT]
      · cases v with
        | jstr t =>
          by_cases hb : (pyStrip t == "") = true
          · left; simp [create_todo, hemp, hT, hb]
          · cases db with
            | ok => right; right; right; simp [create_todo, hemp, hT, hb]
            | fail msg => right; left; exact ⟨msg, by simp [create_todo, hemp, hT, hb]⟩
        | jnull => right; right; left; simp [create_todo, hemp, hT]
        | jbool b => right; right; left; simp [create_todo, hemp, hT]
        | jnum n => right; right; left; simp [create_todo, hemp, hT]
        | jarr xs => right; right; left; simp [create_todo, hemp, hT]
        | jobj fs => right; right; left; simp [create_todo, hemp, hT]

/-- Helper: the four possible response bodies of update_todo. -/
theorem update_resp_cases (id : Nat) (body : Option Jobj) (db : DbOutcome) (now : Nat)
    (s : Store) :
    (update_todo id body db now s).1 = notFoundResp ∨
    (update_todo id body db now s).1 = internalErrorResp ∨
    (∃ msg, (update_todo id body db now s).1 = storageErrorResp msg) ∨
    (update_todo id body db now s).1.1 = 200 := by
  rcases hF : findTodo s id with _ | todo
  · left; simp [update_todo, hF]
  · cases body with
    | none => right; left; simp [update_todo, hF]
    | some data =>
      cases db with
      | fail msg => right; right; left; exact ⟨msg, by simp [update_todo, hF]⟩
      | ok => right; right; right; simp [update_todo, hF]

/-- Helper: the three possible response bodies of delete_todo. -/
theorem delete_resp_cases (id : Nat) (db : DbOutcome) (s : Store) :
    (delete_todo id db s).1 = notFoundResp ∨
    (∃ msg, (delete_todo id db s).1 = storageErrorResp msg) ∨
    (delete_todo id db s).1.1 = 200 := by
  rcases hF : findTodo s id with _ | todo
  · left; simp [delete_todo, hF]
  · cases db with
    | fail msg => right; left; exact ⟨msg, by simp [delete_todo, hF]⟩
    | ok => right; right; simp [delete_todo, hF]

/-- Helper: the two possible response bodies of get_todo. -/
theorem get_resp_cases (id : Nat) (s : Store) :
    get_todo id s = notFoundResp ∨ (get_todo id s).1 = 200 := by
  rcases hF : findTodo s id with _ | todo
  · left; simp [get_todo, hF]
  · right; simp [get_todo, hF]

/-- Helper: the two possible response bodies of get_todos. -/
theorem list_resp_cases (db : DbOutcome) (s : Store) :
    (∃ msg, get_todos db s = storageErrorResp msg) ∨ (get_todos db s).1 = 200 := by
  cases db with
  | fail msg => exact Or.inl ⟨msg, rfl⟩
  | ok => exact Or.inr rfl

/-- Helper: create_todo either leaves the store unchanged or appends one new
row carrying the validated title verbatim. -/
theorem create_store_cases (body : Option Jobj) (db : DbOutcome) (now : Nat) (s : Store) :
    (create_todo body db now s).2 = s ∨
    ∃ data title, body = some data ∧
      jlookup data "title" = some (JVal.jstr title) ∧ pyStrip title ≠ "" ∧
      (create_todo body db now s).2 =
        { todos := s.todos ++ [{ id := s.nextId, title := title,
                                 description := getDescription data,
                                 completed := false, created_at := now,
                                 updated_at := now }],
          nextId := s.nextId + 1 } := by
  cases body with
  | none => exact Or.inl rfl
  | some data =>
    by_cases hemp : data.isEmpty
    · left; simp [create_todo, hemp]
    · rcases hT : jlookup data "title" with _ | v
      · left; simp [create_todo, hemp, hT]
      · cases v with
        | jstr t =>
          by_cases hb : (pyStrip t == "") = true
          · left; simp [create_todo, hemp, hT, hb]
          · cases db with
            | ok =>
              right
              refine ⟨data, t, rfl, hT, by simpa using hb, ?_⟩
              simp [create_todo, hemp, hT, hb]
            | fail msg => left; simp [create_todo, hemp, hT, hb]
        | jnull => left; simp [create_todo, hemp, hT]
        | jbool b => left; simp [create_todo, hemp, hT]
        | jnum n => left; simp [create_todo, hemp, hT]
        | jarr xs => left; simp [create_todo, hemp, hT]
        | jobj fs => left; simp [create_todo, hemp, hT]

/-- Helper: update_todo either leaves the store unchanged or rewrites the
found row through applyPut. -/
theorem update_store_cases (id : Nat) (body : Option Jobj) (db : DbOutcome) (now : Nat)
    (s : Store) :
    (update_todo id body db now s).2 = s ∨
    ∃ todo data, findTodo s id = some todo ∧ body = some data ∧
      (update_todo id body db now s).2 =
        { s with todos :=
            s.todos.map (fun t => if t.id == id then applyPut todo data now else t) } := by
  rcases hF : findTodo s id with _ | todo
  · left; simp [update_todo, hF]
  · cases body with
    | none => left; simp [update_todo, hF]
    | some data =>
      cases db with
      | fail msg => left; simp [update_todo, hF]
      | ok =>
        right
        exact ⟨todo, data, rfl, rfl, by simp [update_todo, hF]⟩

/-- Helper: delete_todo either leaves the store unchanged or filters out the
rows holding the key. -/
theorem delete_store_cases (id : Nat) (db : DbOutcome) (s : Store) :
    (delete_todo id db s).2 = s ∨
    (delete_todo id db s).2 =
      { s with todos := s.todos.filter (fun t => !(t.id == id)) } := by
  rcases hF : findTodo s id with _ | todo
  · left; simp [delete_todo, hF]
  · cases db with
    | fail msg => left; simp [delete_todo, hF]
    | ok => right; simp [delete_todo, hF]

end TodoApp

namespace TodoApp

/-- Helper: every store whose rows all carry non-empty titles keeps that
property across one step whose PUT title, when present, is non-blank. -/
theorem titlesNonEmpty_step (s : Store) (st : Step)
    (hstep : StepTitleOk st) (hs : TitlesNonEmpty s) :
    TitlesNonEmpty (execStep s st) := by
  obtain ⟨req, db, now⟩ := st
  cases req with
  | health => exact hs
  | listTodos => exact hs
  | getOne id => exact hs
  | create body =>
    rcases create_store_cases body db now s with h | ⟨data, title, hbody, hT, hstrip, h⟩
    · rw [show execStep s { req := Request.create body, db := db, now := now }
        = (create_todo body db now s).2 from rfl, h]
      exact hs
    · rw [show execStep s { req := Request.create body, db := db, now := now }
        = (create_todo body db now s).2 from rfl, h]
      intro t ht
      rcases List.mem_append.mp ht with h1 | h2
      · exact hs t h1
      · have ht2 : t = { id := s.nextId, title := title,
                         description := getDescription data,
                         completed := false, created_at := now,
                         updated_at := now } := by
          simpa using h2
        rw [ht2]
        exact ne_empty_of_pyStrip title hstrip
  | update id body =>
    rcases update_store_cases id body db now s with h | ⟨todo, data, hF, hbody, h⟩
    · rw [show execStep s { req := Request.update id body, db := db, now := now }
        = (update_todo id body db now s).2 from rfl, h]
      exact hs
    · rw [show execStep s { req := Request.update id body, db := db, now := now }
        = (update_todo id body db now s).2 from rfl, h]
      intro t ht
      obtain ⟨t0, ht0, heq⟩ := List.mem_map.mp ht
      have htodo : todo ∈ s.todos :=
        @List.mem_of_find?_eq_some Todo (fun t => t.id == id) todo s.todos hF
      subst hbody
      by_cases hid : (t0.id == id) = true
      · rw [if_pos hid] at heq
        rw [← heq]
        rcases hT : jlookup data "title" with _ | v
        · have hsame : (applyPut todo data now).title = todo.title := by
            simp [applyPut, hT]
          rw [hsame]
          exact hs todo htodo
        · cases v with
          | jstr v =>
            have hv : (applyPut todo data now).title = v := by
              simp [applyPut, hT]
            rw [hv]
            exact ne_empty_of_pyStrip v (hstep v hT)
          | jnull =>
            have hsame : (applyPut todo data now).title = todo.title := by
              simp [applyPut, hT]
            rw [hsame]; exact hs todo htodo
          | jbool b =>
            have hsame : (applyPut todo data now).title = todo.title := by
              simp [applyPut, hT]
            rw [hsame]; exact hs todo htodo
          | jnum n =>
            have hsame : (applyPut todo data now).title = todo.title := by
              simp [applyPut, hT]
            rw [hsame]; exact hs todo htodo
          | jarr xs =>
            have hsame : (applyPut todo data now).title = todo.title := by
              simp [applyPut, hT]
            rw [hsame]; exact hs todo htodo
          | jobj fs =>
            have hsame : (applyPut todo data now).title = todo.title := by
              simp [applyPut, hT]
            rw [hsame]; exact hs todo htodo
      · rw [if_neg hid] at heq
        rw [← heq]
        exact hs t0 ht0
  | delete id =>
    rcases delete_store_cases id db s with h | h
    · rw [show execStep s { req := Request.delete id, db := db, now := now }
        = (delete_todo id db s).2 from rfl, h]
      exact hs
    · rw [show execStep s { req := Request.delete id, db := db, now := now }
        = (delete_todo id db s).2 from rfl, h]
      intro t ht
      exact hs t (List.mem_filter.mp ht).1

/-- Helper: the step-wise title invariant extends to whole traces. -/
theorem titlesNonEmpty_trace (steps : List Step) (s : Store)
    (hs : TitlesNonEmpty s) (hok : ∀ st ∈ steps, StepTitleOk st) :
    TitlesNonEmpty (execTrace s steps) := by
  induction steps generalizing s with
  | nil => exact hs
  | cons st rest ih =>
    have h1 := titlesNonEmpty_step s st (hok st (List.mem_cons_self st rest)) hs
    exact ih (execStep s st) h1 (fun st2 h2 => hok st2 (List.mem_cons_of_mem st h2))

/-- Claim C1 as stated is false on the code: the trace that creates a todo
and then sends PUT with body title set to the empty string reaches a store
whose single row has an empty title, because update_todo assigns
data.get("title", todo.title) without re-validating. -/
theorem C1_counterexample :
    ¬ TitlesNonEmpty (execTrace Store.empty c1Steps) := by
  intro h
  exact absurd rfl (h { id := 1, title := "", description := "", completed := false,
                        created_at := 0, updated_at := 1 } (by decide))

/-- Claim C1 amended: starting from the empty store, every sequence of
create, update and delete operations in which each PUT body title field,
when present as a string, is non-blank after stripping, leaves every stored
todo with a non-empty title.  (A PUT whose body carries a blank or empty
title does break the invariant, as C1_counterexample shows.) -/
theorem C1_amended_no_blank_put_titles (steps : List Step)
    (hok : ∀ st ∈ steps, StepTitleOk st) :
    TitlesNonEmpty (execTrace Store.empty steps) :=
  titlesNonEmpty_trace steps Store.empty
    (fun t ht => absurd ht (List.not_mem_nil t)) hok

/-- Witness for C1_amended_no_blank_put_titles at the concrete trace that
creates a todo and then flips only its completed flag. -/
theorem C1_amended_witness : TitlesNonEmpty (execTrace Store.empty c1GoodSteps) :=
  C1_amended_no_blank_put_titles c1GoodSteps (by
    intro st hst
    rcases List.mem_cons.mp hst with h | hst2
    · subst h
      exact True.intro
    · rcases List.mem_cons.mp hst2 with h | h
      · subst h
        exact fun v hv => Option.noConfusion hv
      · exact absurd h (List.not_mem_nil st))

/-- Claim C2 as stated is false on the code: the 503 unhealthy health-check
response carries status, database and error fields but no success field. -/
theorem C2_counterexample :
    (health_check (DbOutcome.fail "Database connection failed")).1 = 503 ∧
    jlookup (health_check (DbOutcome.fail "Database connection failed")).2 "success"
      = none := ⟨rfl, rfl⟩

/-- Claim C2 amended: every error response (status at least 400) of every
endpoint other than the health check is JSON carrying success false together
with a human-readable error or message string; the health-check 503 carries
a human-readable error string (but no success field, per C2_counterexample). -/
theorem C2_amended_error_bodies (req : Request) (db : DbOutcome) (now : Nat) (s : Store)
    (herr : 400 ≤ (handle req db now s).1.1) :
    (req ≠ Request.health → ErrorBodyOk (handle req db now s).1.2) ∧
    (req = Request.health →
      ∃ m, jlookup (handle req db now s).1.2 "error" = some (JVal.jstr m)) := by
  constructor
  · intro hne
    cases req with
    | health => exact absurd rfl hne
    | listTodos =>
      rcases list_resp_cases db s with ⟨msg, h⟩ | h
      · have hh : (handle Request.listTodos db now s).1 = get_todos db s := rfl
        rw [hh, h]
        exact errorBodyOk_storage msg
      · have hh : (handle Request.listTodos db now s).1.1 = (get_todos db s).1 := rfl
        rw [hh, h] at herr
        exact absurd herr (by omega)
    | getOne id =>
      rcases get_resp_cases id s with h | h
      · have hh : (handle (Request.getOne id) db now s).1 = get_todo id s := rfl
        rw [hh, h]
        exact errorBodyOk_notFound
      · have hh : (handle (Request.getOne id) db now s).1.1 = (get_todo id s).1 := rfl
        rw [hh, h] at herr
        exact absurd herr (by omega)
    | create body =>
      have hh : (handle (Request.create body) db now s).1 = (create_todo body db now s).1 := rfl
      rcases create_resp_cases body db now s with h | ⟨msg, h⟩ | h | h
      · rw [hh, h]; exact errorBodyOk_titleRequired
      · rw [hh, h]; exact errorBodyOk_storage msg
      · rw [hh, h]; exact errorBodyOk_internal
      · rw [show (handle (Request.create body) db now s).1.1
            = (create_todo body db now s).1.1 from rfl, h] at herr
        exact absurd herr (by omega)
    | update id body =>
      have hh : (handle (Request.update id body) db now s).1
          = (update_todo id body db now s).1 := rfl
      rcases update_resp_cases id body db now s with h | h | ⟨msg, h⟩ | h
      · rw [hh, h]; exact errorBodyOk_notFound
      · rw [hh, h]; exact errorBodyOk_internal
      · rw [hh, h]; exact errorBodyOk_storage msg
      · rw [show (handle (Request.update id body) db now s).1.1
            = (update_todo id body db now s).1.1 from rfl, h] at herr
        exact absurd herr (by omega)
    | delete id =>
      have hh : (handle (Request.delete id) db now s).1 = (delete_todo id db s).1 := rfl
      rcases delete_resp_cases id db s with h | ⟨msg, h⟩ | h
      · rw [hh, h]; exact errorBodyOk_notFound
      · rw [hh, h]; exact errorBodyOk_storage msg
      · rw [show (handle (Request.delete id) db now s).1.1
            = (delete_todo id db s).1.1 from rfl, h] at herr
        exact absurd herr (by omega)
  · intro heq
    subst heq
    cases db with
    | ok =>
      rw [show (handle Request.health DbOutcome.ok now s).1.1 = 200 from rfl] at herr
      exact absurd herr (by omega)
    | fail msg => exact ⟨msg, rfl⟩

/-- Witness for C2_amended_error_bodies at a GET of a missing id on the
empty store, whose response is the registered 404 body. -/
theorem C2_amended_witness :
    (Request.getOne 1 ≠ Request.health →
      ErrorBodyOk (handle (Request.getOne 1) DbOutcome.ok 0 Store.empty).1.2) ∧
    (Request.getOne 1 = Request.health →
      ∃ m, jlookup (handle (Request.getOne 1) DbOutcome.ok 0 Store.empty).1.2 "error"
        = some (JVal.jstr m)) :=
  C2_amended_error_bodies (Request.getOne 1) DbOutcome.ok 0 Store.empty (by decide)

end TodoApp

namespace TodoApp

/-- Claim C3: for an existing todo and any PUT body, each of title,
description and completed that is absent from the body keeps its prior
stored value, and each that is present (including completed false)
overwrites the stored value with the supplied value. -/
theorem C3_put_field_semantics (s : Store) (id now : Nat) (data : Jobj) (todo : Todo)
    (hfind : findTodo s id = some todo) :
    ∃ todo2, findTodo (update_todo id (some data) DbOutcome.ok now s).2 id = some todo2 ∧
      (jlookup data "title" = none → todo2.title = todo.title) ∧
      (∀ v, jlookup data "title" = some (JVal.jstr v) → todo2.title = v) ∧
      (jlookup data "description" = none → todo2.description = todo.description) ∧
      (∀ v, jlookup data "description" = some (JVal.jstr v) → todo2.description = v) ∧
      (jlookup data "completed" = none → todo2.completed = todo.completed) ∧
      (∀ b, jlookup data "completed" = some (JVal.jbool b) → todo2.completed = b) := by
  have hfind2 : s.todos.find? (fun t => t.id == id) = some todo := hfind
  have hmem : (todo.id == id) = true :=
    @List.find?_some Todo (fun t => t.id == id) todo s.todos hfind2
  have hid2 : ((applyPut todo data now).id == id) = true := hmem
  have hsome : (s.todos.find? (fun t => t.id == id)).isSome = true := by
    rw [hfind2]; rfl
  have hstore : (update_todo id (some data) DbOutcome.ok now s).2 =
      { s with todos :=
          s.todos.map (fun t => if t.id == id then applyPut todo data now else t) } := by
    simp [update_todo, hfind]
  refine ⟨applyPut todo data now, ?_, ?_, ?_, ?_, ?_, ?_, ?_⟩
  · rw [hstore]
    exact find_map_replace s.todos id _ hid2 hsome
  · intro h; simp [applyPut, h]
  · intro v h; simp [applyPut, h]
  · intro h; simp [applyPut, h]
  · intro v h; simp [applyPut, h]
  · intro h; simp [applyPut, h]
  · intro b h; simp [applyPut, h]

/-- Witness for C3_put_field_semantics at demoStore and a body carrying only
completed false. -/
theorem C3_witness :
    ∃ todo2, findTodo (update_todo 1 (some c3Body) DbOutcome.ok 5 demoStore).2 1
        = some todo2 ∧
      (jlookup c3Body "title" = none → todo2.title = demoTodo.title) ∧
      (∀ v, jlookup c3Body "title" = some (JVal.jstr v) → todo2.title = v) ∧
      (jlookup c3Body "description" = none → todo2.description = demoTodo.description) ∧
      (∀ v, jlookup c3Body "description" = some (JVal.jstr v) → todo2.description = v) ∧
      (jlookup c3Body "completed" = none → todo2.completed = demoTodo.completed) ∧
      (∀ b, jlookup c3Body "completed" = some (JVal.jbool b) → todo2.completed = b) :=
  C3_put_field_semantics demoStore 1 5 c3Body demoTodo rfl

/-- Claim C4: when the storage layer fails during a mutating operation that
reached it, the handler returns the 500 database-error response and the
rollback leaves the store exactly as it was before the request. -/
theorem C4_storage_error_rollback (req : Request) (msg : String) (now : Nat) (s : Store)
    (hreach : ReachesStorage req s) :
    (handle req (DbOutcome.fail msg) now s).1 = storageErrorResp msg ∧
    (handle req (DbOutcome.fail msg) now s).2 = s := by
  cases req with
  | health => exact hreach.elim
  | listTodos => exact hreach.elim
  | getOne id => exact hreach.elim
  | create body =>
    cases body with
    | none => exact hreach.elim
    | some data =>
      obtain ⟨t, hT, hstrip⟩ := hreach
      have hne := isEmpty_false_of_jlookup data "title" _ hT
      have hb : (pyStrip t == "") = false := beq_eq_false_iff_ne.mpr hstrip
      refine ⟨?_, ?_⟩ <;> simp [handle, create_todo, hne, hT, hb]
  | update id body =>
    cases body with
    | none => exact hreach.elim
    | some data =>
      obtain ⟨todo, hfind⟩ := Option.isSome_iff_exists.mp hreach
      refine ⟨?_, ?_⟩ <;> simp [handle, update_todo, hfind]
  | delete id =>
    obtain ⟨todo, hfind⟩ := Option.isSome_iff_exists.mp hreach
    refine ⟨?_, ?_⟩ <;> simp [handle, delete_todo, hfind]

/-- Witness for C4_storage_error_rollback at a DELETE of the stored demo
row whose commit fails. -/
theorem C4_witness :
    (handle (Request.delete 1) (DbOutcome.fail "connection lost") 0 demoStore).1
      = storageErrorResp "connection lost" ∧
    (handle (Request.delete 1) (DbOutcome.fail "connection lost") 0 demoStore).2
      = demoStore :=
  C4_storage_error_rollback (Request.delete 1) "connection lost" 0 demoStore rfl

/-- Claim C5: creating a todo from a valid (non-blank after stripping) title
returns 201, and fetching the new id yields a row whose title matches the
request, whose description matches a supplied description, whose completed
flag is false, and whose created_at equals its updated_at. -/
theorem C5_create_then_fetch (s : Store) (now : Nat) (data : Jobj) (title : String)
    (hT : jlookup data "title" = some (JVal.jstr title))
    (hstrip : pyStrip title ≠ "")
    (hfresh : ∀ t ∈ s.todos, t.id ≠ s.nextId) :
    (create_todo (some data) DbOutcome.ok now s).1.1 = 201 ∧
    ∃ t2, findTodo (create_todo (some data) DbOutcome.ok now s).2 s.nextId = some t2 ∧
      get_todo s.nextId (create_todo (some data) DbOutcome.ok now s).2 =
        (200, [("success", JVal.jbool true), ("data", t2.to_dict)]) ∧
      t2.title = title ∧
      (∀ d, jlookup data "description" = some (JVal.jstr d) → t2.description = d) ∧
      t2.completed = false ∧ t2.created_at = t2.updated_at := by
  have hne := isEmpty_false_of_jlookup data "title" _ hT
  have hb : (pyStrip title == "") = false := beq_eq_false_iff_ne.mpr hstrip
  have hstore : (create_todo (some data) DbOutcome.ok now s).2 =
      { todos := s.todos ++ [{ id := s.nextId, title := title,
                               description := getDescription data,
                               completed := false,
                               created_at := now, updated_at := now }],
        nextId := s.nextId + 1 } := by
    simp [create_todo, hne, hT, hb]
  have hfindNew : findTodo (create_todo (some data) DbOutcome.ok now s).2 s.nextId =
      some { id := s.nextId, title := title,
             description := getDescription data, completed := false,
             created_at := now, updated_at := now } := by
    rw [hstore]
    exact find_append_fresh s.todos _ s.nextId (by simp) hfresh
  refine ⟨by simp [create_todo, hne, hT, hb], ?_⟩
  refine ⟨_, hfindNew, ?_, rfl, ?_, rfl, rfl⟩
  · simp [get_todo, hfindNew]
  · intro d hd
    simp [getDescription, hd]

/-- Witness for C5_create_then_fetch at the empty store with a body carrying
a title and a description. -/
theorem C5_witness :
    (create_todo (some c5Body) DbOutcome.ok 7 Store.empty).1.1 = 201 ∧
    ∃ t2, findTodo (create_todo (some c5Body) DbOutcome.ok 7 Store.empty).2
        Store.empty.nextId = some t2 ∧
      get_todo Store.empty.nextId (create_todo (some c5Body) DbOutcome.ok 7 Store.empty).2 =
        (200, [("success", JVal.jbool true), ("data", t2.to_dict)]) ∧
      t2.title = "Buy milk" ∧
      (∀ d, jlookup c5Body "description" = some (JVal.jstr d) → t2.description = d) ∧
      t2.completed = false ∧ t2.created_at = t2.updated_at :=
  C5_create_then_fetch Store.empty 7 c5Body "Buy milk" rfl (by decide)
    (fun t ht => absurd ht (List.not_mem_nil t))

/-- Claim C6: listing returns some reordering of exactly the stored rows,
sorted by created_at descending, with count equal to the length of the
returned list. -/
theorem C6_list_ordered_desc (s : Store) :
    ∃ l : List Todo, l.Perm s.todos ∧
      List.Pairwise (fun a b => b.created_at ≤ a.created_at) l ∧
      get_todos DbOutcome.ok s =
        (200, [("success", JVal.jbool true),
               ("count", JVal.jnum l.length),
               ("data", JVal.jarr (l.map Todo.to_dict))]) := by
  refine ⟨s.todos.mergeSort createdDescLe, List.mergeSort_perm _ _, ?_, rfl⟩
  have htrans : ∀ a b c : Todo, createdDescLe a b = true → createdDescLe b c = true →
      createdDescLe a c = true := by
    intro a b c hab hbc
    simp only [createdDescLe, Nat.ble_eq] at hab hbc ⊢
    omega
  have htotal : ∀ a b : Todo, (createdDescLe a b || createdDescLe b a) = true := by
    intro a b
    simp only [createdDescLe, Nat.ble_eq, Bool.or_eq_true]
    omega
  have hp := List.sorted_mergeSort htrans htotal s.todos
  exact hp.imp (fun h => by simpa [createdDescLe, Nat.ble_eq] using h)

/-- Claim C7: deleting an existing id returns 200; a subsequent GET of that
id returns the registered 404 body, and a second DELETE also returns it. -/
theorem C7_delete_then_404 (s : Store) (id : Nat)
    (h : (findTodo s id).isSome = true) :
    (delete_todo id DbOutcome.ok s).1.1 = 200 ∧
    get_todo id (delete_todo id DbOutcome.ok s).2 = notFoundResp ∧
    notFoundResp.1 = 404 ∧
    (delete_todo id DbOutcome.ok (delete_todo id DbOutcome.ok s).2).1 = notFoundResp := by
  obtain ⟨todo, hfind⟩ := Option.isSome_iff_exists.mp h
  have hstore : (delete_todo id DbOutcome.ok s).2 =
      { s with todos := s.todos.filter (fun t => !(t.id == id)) } := by
    simp [delete_todo, hfind]
  have hnone : findTodo (delete_todo id DbOutcome.ok s).2 id = none := by
    rw [hstore]
    exact find_filter_ne s.todos id
  refine ⟨?_, ?_, rfl, ?_⟩
  · simp [delete_todo, hfind]
  · simp [get_todo, hnone]
  · have hgen : ∀ s2 : Store, findTodo s2 id = none →
        (delete_todo id DbOutcome.ok s2).1 = notFoundResp := by
      intro s2 hn2
      simp [delete_todo, hn2]
    exact hgen _ hnone

/-- Witness for C7_delete_then_404 at the stored demo row. -/
theorem C7_witness :
    (delete_todo 1 DbOutcome.ok demoStore).1.1 = 200 ∧
    get_todo 1 (delete_todo 1 DbOutcome.ok demoStore).2 = notFoundResp ∧
    notFoundResp.1 = 404 ∧
    (delete_todo 1 DbOutcome.ok (delete_todo 1 DbOutcome.ok demoStore).2).1
      = notFoundResp :=
  C7_delete_then_404 demoStore 1 rfl

/-- Claim C8: a POST whose body is null, an empty object, lacks a title key,
or carries a title that strips to the empty string, returns the 400
validation response with the store unchanged, whatever the storage layer
would have done. -/
theorem C8_create_validation_400 (body : Option Jobj) (db : DbOutcome) (now : Nat)
    (s : Store)
    (hbad : body = none ∨ ∃ data, body = some data ∧
      (data.isEmpty = true ∨ jlookup data "title" = none ∨
       ∃ t, jlookup data "title" = some (JVal.jstr t) ∧ pyStrip t = "")) :
    create_todo body db now s = (titleRequiredResp, s) := by
  rcases hbad with h | ⟨data, hb, hcase⟩
  · subst h; rfl
  · subst hb
    rcases hcase with h | h | ⟨t, hT, hs0⟩
    · simp [create_todo, h]
    · by_cases hemp : data.isEmpty <;> simp [create_todo, hemp, h]
    · have hne := isEmpty_false_of_jlookup data "title" _ hT
      have hb2 : (pyStrip t == "") = true := beq_iff_eq.mpr hs0
      simp [create_todo, hne, hT, hb2]

/-- Witness for C8_create_validation_400 at a body with a description but no
title, against a failing storage layer, on the empty store. -/
theorem C8_witness :
    create_todo (some c8Body) (DbOutcome.fail "db down") 0 Store.empty
      = (titleRequiredResp, Store.empty) :=
  C8_create_validation_400 (some c8Body) (DbOutcome.fail "db down") 0 Store.empty
    (Or.inr ⟨c8Body, rfl, Or.inr (Or.inl rfl)⟩)

/-- Claim C9: a POST whose title is present but not a string reaches the
registered generic 500 handler (AttributeError at .strip()), returning the
internal-server-error body, and no record is created. -/
theorem C9_nonstring_title_500 (data : Jobj) (v : JVal) (db : DbOutcome) (now : Nat)
    (s : Store)
    (hT : jlookup data "title" = some v)
    (hns : ∀ str, v ≠ JVal.jstr str) :
    create_todo (some data) db now s = (internalErrorResp, s) := by
  have hne := isEmpty_false_of_jlookup data "title" v hT
  cases v with
  | jstr str => exact absurd rfl (hns str)
  | jnull => simp [create_todo, hne, hT]
  | jbool b => simp [create_todo, hne, hT]
  | jnum n => simp [create_todo, hne, hT]
  | jarr xs => simp [create_todo, hne, hT]
  | jobj fs => simp [create_todo, hne, hT]

/-- Witness for C9_nonstring_title_500 at a body whose title is the number 3. -/
theorem C9_witness :
    create_todo (some c9Body) DbOutcome.ok 0 Store.empty
      = (internalErrorResp, Store.empty) :=
  C9_nonstring_title_500 c9Body (JVal.jnum 3) DbOutcome.ok 0 Store.empty rfl
    (fun _ h => JVal.noConfusion h)

/-- Claim C10: a create with a non-blank title stores and returns the title
verbatim, whitespace included; stripping is applied only in the guard. -/
theorem C10_title_verbatim (data : Jobj) (title : String) (now : Nat) (s : Store)
    (hT : jlookup data "title" = some (JVal.jstr title))
    (hstrip : pyStrip title ≠ "") :
    (create_todo (some data) DbOutcome.ok now s).2.todos =
      s.todos ++ [{ id := s.nextId, title := title,
                    description := getDescription data, completed := false,
                    created_at := now, updated_at := now }] ∧
    (create_todo (some data) DbOutcome.ok now s).1 =
      (201, [("success", JVal.jbool true),
             ("data", Todo.to_dict { id := s.nextId, title := title,
                                     description := getDescription data,
                                     completed := false,
                                     created_at := now, updated_at := now }),
             ("message", JVal.jstr "Todo created successfully")]) := by
  have hne := isEmpty_false_of_jlookup data "title" _ hT
  have hb : (pyStrip title == "") = false := beq_eq_false_iff_ne.mpr hstrip
  refine ⟨?_, ?_⟩ <;> simp [create_todo, hne, hT, hb]

/-- Witness for C10_title_verbatim at a title padded with whitespace. -/
theorem C10_witness :
    (create_todo (some c10Body) DbOutcome.ok 3 demoStore).2.todos =
      demoStore.todos ++ [{ id := demoStore.nextId, title := "  padded title  ",
                            description := getDescription c10Body, completed := false,
                            created_at := 3, updated_at := 3 }] ∧
    (create_todo (some c10Body) DbOutcome.ok 3 demoStore).1 =
      (201, [("success", JVal.jbool true),
             ("data", Todo.to_dict { id := demoStore.nextId, title := "  padded title  ",
                                     description := getDescription c10Body,
                                     completed := false,
                                     created_at := 3, updated_at := 3 }),
             ("message", JVal.jstr "Todo created successfully")]) :=
  C10_title_verbatim c10Body "  padded title  " 3 demoStore rfl (by decide)

end TodoApp
